import Mathlib

/-!
Verification of the asynchronous job lifecycle controller of
`splunk-assistant-skills-lib` (the `job_poller` module: `JobState`,
`JobProgress`, `get_dispatch_state`, `poll_job_status`, `set_job_ttl`).

The implementation module is not part of the available sources (only its
unit tests in `tests/test_job_poller.py` and its CLI callers are), so the
definitions below are modelled from the specification of the job lifecycle
core, with the concrete field names, error shapes and loop ordering fixed
by the unit tests.  Structured transport data is modelled by the `Value`
type (a JSON-like value as Python would hold it), floats by `ℚ`, and the
poll loop by explicit fuel with an injectable response stream, clock
stream and progress callback, mirroring how the tests inject a fake
transport and patch the time source.
-/

/-- A JSON-like structured value as returned by the transport layer:
strings, integers, floats (modelled as rationals), booleans, null,
arrays and string-keyed objects. -/
inductive Value where
  | str (s : String)
  | int (n : Int)
  | rat (q : ℚ)
  | bool (b : Bool)
  | null
  | list (vs : List Value)
  | dict (fs : List (String × Value))

/-- Look a key up in a structured value; `none` unless the value is an
object containing the key (Python `data.get(key)` on a dict). -/
def dictLookup (k : String) : Value → Option Value
  | .dict fs => fs.lookup k
  | _ => none

/-- Modelled from the spec: `JobState`, the closed dispatch-state
enumeration `Queued, Parsing, Running, Finalizing, Done, Failed, Paused`. -/
inductive JobState where
  | QUEUED
  | PARSING
  | RUNNING
  | FINALIZING
  | DONE
  | FAILED
  | PAUSED
deriving DecidableEq

/-- The wire string of each `JobState` member (its Python enum `value`). -/
def JobState.value : JobState → String
  | .QUEUED => "QUEUED"
  | .PARSING => "PARSING"
  | .RUNNING => "RUNNING"
  | .FINALIZING => "FINALIZING"
  | .DONE => "DONE"
  | .FAILED => "FAILED"
  | .PAUSED => "PAUSED"

/-- Parse a wire string into a `JobState`; `none` for anything outside the
closed enumeration. -/
def JobState.ofString? : String → Option JobState
  | "QUEUED" => some .QUEUED
  | "PARSING" => some .PARSING
  | "RUNNING" => some .RUNNING
  | "FINALIZING" => some .FINALIZING
  | "DONE" => some .DONE
  | "FAILED" => some .FAILED
  | "PAUSED" => some .PAUSED
  | _ => none

/-- Modelled from the spec: `is_active` is true for
`Queued, Parsing, Running, Finalizing`. -/
def JobState.is_active : JobState → Bool
  | .QUEUED => true
  | .PARSING => true
  | .RUNNING => true
  | .FINALIZING => true
  | _ => false

/-- Modelled from the spec: `is_terminal` is true for `Done, Failed`;
`Paused` is notably not terminal. -/
def JobState.is_terminal : JobState → Bool
  | .DONE => true
  | .FAILED => true
  | _ => false

/-- Modelled from the spec: `is_success` is true only for `Done`. -/
def JobState.is_success : JobState → Bool
  | .DONE => true
  | _ => false

/-- Truncation of a rational toward zero, as Python `int(float)` does
(`int(10.5) == 10`, `int(-10.5) == -10`). -/
def ratTrunc (q : ℚ) : Int :=
  if 0 ≤ q then ⌊q⌋ else -⌊-q⌋

/-- The numeric value of a decimal digit character, `none` otherwise. -/
def charDigit? (c : Char) : Option Nat :=
  if '0' ≤ c ∧ c ≤ '9' then some (c.toNat - '0'.toNat) else none

/-- Accumulate decimal digits left to right; `none` on any non-digit. -/
def parseNatAux : List Char → Nat → Option Nat
  | [], acc => some acc
  | c :: cs, acc =>
    match charDigit? c with
    | some d => parseNatAux cs (acc * 10 + d)
    | none => none

/-- A non-empty all-digit character list as a natural number. -/
def parseNatList (cs : List Char) : Option Nat :=
  match cs with
  | [] => none
  | _ => parseNatAux cs 0

/-- Parse the digits of an unsigned decimal literal (optional fractional
part) into a rational. -/
def parseDecimalCore (cs : List Char) : Option ℚ :=
  let w := cs.takeWhile (· ≠ '.')
  match cs.dropWhile (· ≠ '.') with
  | [] => (parseNatList w).map (fun n => (n : ℚ))
  | _ :: f =>
    if f.contains '.' then none
    else
      match parseNatList w, parseNatList f with
      | some wn, some fn => some ((wn : ℚ) + (fn : ℚ) / ((10 : ℚ) ^ f.length))
      | _, _ => none

/-- Parse a decimal numeric string (optional sign, digits, optional
fractional part) into a rational, as Python `float(str)` accepts
`"0.5"`, `"100"`, `"5.25"`; `none` for non-numeric garbage. -/
def parseDecimal (s : String) : Option ℚ :=
  match s.toList with
  | '-' :: cs => (parseDecimalCore cs).map (fun q => -q)
  | '+' :: cs => parseDecimalCore cs
  | cs => parseDecimalCore cs

/-- Parse a signed integer string, as Python `int(str)` accepts `"100"`
or `"-3"` but rejects `"10.5"` and `"abc"`. -/
def parseIntStr (s : String) : Option Int :=
  match s.toList with
  | '-' :: cs => (parseNatList cs).map (fun n => -(n : Int))
  | '+' :: cs => (parseNatList cs).map (fun n => (n : Int))
  | cs => (parseNatList cs).map (fun n => (n : Int))

/-- Modelled from the spec: `_safe_int` — coerce a raw field to an
integer, returning the given default when the field is absent or
non-coercible.  A numeric string is coerced to its number, a float is
truncated, a bool becomes 0/1; `None`, garbage strings and structured
values fall back to the default. -/
def safe_int (v : Option Value) (d : Int) : Int :=
  match v with
  | some (.int n) => n
  | some (.rat q) => ratTrunc q
  | some (.bool b) => if b then 1 else 0
  | some (.str s) => (parseIntStr s).getD d
  | _ => d

/-- Modelled from the spec: `_safe_float` — coerce a raw field to a
float (modelled as `ℚ`), returning the given default when the field is
absent or non-coercible. -/
def safe_float (v : Option Value) (d : ℚ) : ℚ :=
  match v with
  | some (.rat q) => q
  | some (.int n) => (n : ℚ)
  | some (.bool b) => if b then 1 else 0
  | some (.str s) => (parseDecimal s).getD d
  | _ => d

/-- Python truthiness, as `bool(data.get(key, False))` applies to a raw
field: `False`/`0`/`0.0`/`""`/`None`/empty containers are falsy. -/
def pyTruthy : Value → Bool
  | .str s => s ≠ ""
  | .int n => n ≠ 0
  | .rat q => q ≠ 0
  | .bool b => b
  | .null => false
  | .list vs => ¬vs.isEmpty
  | .dict fs => ¬fs.isEmpty

/-- A boolean field: absent defaults to `false`, otherwise Python
truthiness of the raw value. -/
def safe_bool (v : Option Value) : Bool :=
  match v with
  | none => false
  | some w => pyTruthy w

/-- A string field: a raw string is taken as is, anything else (including
absence) yields the empty-string default. -/
def safe_str (v : Option Value) : String :=
  match v with
  | some (.str s) => s
  | _ => ""

/-- A raw message entry `{"type": ..., "text": ...}` as a
(severity, text) pair; missing pieces default to the empty string. -/
def decodeMessage (v : Value) : String × String :=
  (safe_str (dictLookup "type" v), safe_str (dictLookup "text" v))

/-- The ordered diagnostic message list from the raw `messages` field;
absent or non-list values yield the empty list. -/
def decodeMessages (v : Option Value) : List (String × String) :=
  match v with
  | some (.list vs) => vs.map decodeMessage
  | _ => []

/-- Decoding failure of a raw status payload (`MalformedStatusError`):
the state field is absent, or its raw value — carried in the error — is
outside the closed enumeration. -/
inductive DecodeError where
  | missingState
  | invalidState (raw : Value)

/-- The raw `dispatchState` value as a `JobState`: only a string that is
one of the seven enum wire strings parses. -/
def parseState (v : Value) : Option JobState :=
  match v with
  | .str s => JobState.ofString? s
  | _ => none

/-- Modelled from the spec: `JobProgress` / `StatusSnapshot` — one
immutable parsed view of a single poll response. -/
structure JobProgress where
  sid : String
  state : JobState
  done_progress : ℚ
  event_count : Int
  result_count : Int
  scan_count : Int
  run_duration : ℚ
  is_done : Bool
  is_failed : Bool
  is_paused : Bool
  messages : List (String × String)

/-- Modelled from the spec: the status decoder (`JobProgress`
construction).  Fails with `MalformedStatusError` if `dispatchState` is
absent (`Missing dispatchState`) or not a recognized enum value
(`Invalid dispatchState`, naming the raw value); every other field uses
safe coercion with defaults `""`/0/0.0/false/`[]`. -/
def JobProgress.decode (data : Value) : Except DecodeError JobProgress :=
  match dictLookup "dispatchState" data with
  | none => .error .missingState
  | some v =>
    match parseState v with
    | none => .error (.invalidState v)
    | some st =>
      .ok
        { sid := safe_str (dictLookup "sid" data)
          state := st
          done_progress := safe_float (dictLookup "doneProgress" data) 0
          event_count := safe_int (dictLookup "eventCount" data) 0
          result_count := safe_int (dictLookup "resultCount" data) 0
          scan_count := safe_int (dictLookup "scanCount" data) 0
          run_duration := safe_float (dictLookup "runDuration" data) 0
          is_done := safe_bool (dictLookup "isDone" data)
          is_failed := safe_bool (dictLookup "isFailed" data)
          is_paused := safe_bool (dictLookup "isPaused" data)
          messages := decodeMessages (dictLookup "messages" data) }

/-- Derived progress percentage: `done_progress × 100`. -/
def JobProgress.progress_percent (p : JobProgress) : ℚ :=
  p.done_progress * 100

/-- Derived error message: the text of the first diagnostic message when
`is_failed` and messages exist, otherwise `none`. -/
def JobProgress.error_message (p : JobProgress) : Option String :=
  if p.is_failed then p.messages.head?.map Prod.snd else none

/-- The errors a poll can surface: an invalid job status response (no
`entry`), a malformed status payload (`MalformedStatusError`), the job
failing (`JobFailedError` carrying identifier, dispatch state and
diagnostic messages), or the wait exceeding its budget
(`PollTimeoutError` carrying identifier, elapsed and timeout). -/
inductive PollError where
  | invalidResponse
  | malformed (e : DecodeError)
  | jobFailed (sid : String) (dispatchState : String)
      (messages : List (String × String))
  | timeout (sid : String) (elapsed : ℚ) (timeoutVal : ℚ)

/-- Modelled from the spec: `get_dispatch_state` / `fetch_status` — one
GET through the transport (here: the raw response it returned), decoded
via the status decoder.  Raises `Invalid job status response` when the
`entry` list of the response is absent or empty; otherwise decodes the
`content` sub-object of the first entry (accepting the flat shape when no `content`
key is present) and stamps the requested identifier onto the snapshot. -/
def get_dispatch_state (resp : Value) (sid : String) :
    Except PollError JobProgress :=
  match dictLookup "entry" resp with
  | some (.list (e :: _)) =>
    let content := (dictLookup "content" e).getD e
    match JobProgress.decode content with
    | .error de => .error (.malformed de)
    | .ok p => .ok { p with sid := sid }
  | _ => .error .invalidResponse

/-- The observable outcome of a bounded poll run: the result, how many
status fetches were issued, the decoded snapshots in fetch order, the
sleeps performed (each of one poll interval), and the snapshots handed
to the progress callback. -/
structure PollOutcome where
  result : Except PollError JobProgress
  fetchCount : Nat
  snapshots : List JobProgress
  sleeps : List ℚ
  cbCalls : List JobProgress

/-- Invoke the progress callback on a snapshot, if one was supplied,
discarding its result — a raising callback is caught at the point of
invocation, so only the record of the invocation remains. -/
def cbUpdate (cb : Option (JobProgress → Except String Unit))
    (cbs : List JobProgress) (p : JobProgress) : List JobProgress :=
  match cb with
  | none => cbs
  | some f =>
    let _ := f p
    cbs ++ [p]

/-- Modelled from the spec: the body of the `poll_job_status` loop,
with explicit fuel.  `fetch i` is the transport response to the `i`-th
status GET and `clock j` the `j`-th reading of the injected time source
(`clock 0` is the start time captured at entry; the elapsed check of
iteration `i` reads `clock (i+1)`).  Each iteration: fetch and decode
the status (propagating fetch errors), invoke the progress callback and
discard its result (a raising callback is swallowed), then — in this
order — raise `JobFailedError` if the state is `FAILED` or the
`is_failed` flag is set, return the snapshot if `is_done` or the state
is terminal, return the snapshot if `is_paused`, raise
`PollTimeoutError` if elapsed time reached the timeout, else sleep one
poll interval and repeat.  `none` means the fuel ran out with the loop
still going. -/
def pollAux (fetch : Nat → Value) (clock : Nat → ℚ)
    (cb : Option (JobProgress → Except String Unit)) (sid : String)
    (timeoutVal interval start : ℚ) :
    Nat → Nat → Nat → List JobProgress → List ℚ → List JobProgress →
    Option PollOutcome
  | 0, _, _, _, _, _ => none
  | n + 1, i, fc, snaps, sls, cbs =>
    match get_dispatch_state (fetch i) sid with
    | .error e => some ⟨.error e, fc + 1, snaps, sls, cbs⟩
    | .ok p =>
      let cbs' := cbUpdate cb cbs p
      let snaps' := snaps ++ [p]
      if p.state = .FAILED ∨ p.is_failed = true then
        some ⟨.error (.jobFailed sid p.state.value p.messages), fc + 1,
          snaps', sls, cbs'⟩
      else if p.is_done = true ∨ p.state.is_terminal = true then
        some ⟨.ok p, fc + 1, snaps', sls, cbs'⟩
      else if p.is_paused = true then
        some ⟨.ok p, fc + 1, snaps', sls, cbs'⟩
      else
        let elapsed := clock (i + 1) - start
        if timeoutVal ≤ elapsed then
          some ⟨.error (.timeout sid elapsed timeoutVal), fc + 1,
            snaps', sls, cbs'⟩
        else
          pollAux fetch clock cb sid timeoutVal interval start n (i + 1)
            (fc + 1) snaps' (sls ++ [interval]) cbs'

/-- Modelled from the spec: `poll_job_status` / `poll_until_terminal` —
record the start time (`clock 0`) and run the poll loop from the first
fetch with empty accumulators. -/
def poll_job_status (fetch : Nat → Value) (clock : Nat → ℚ)
    (cb : Option (JobProgress → Except String Unit)) (sid : String)
    (timeoutVal interval : ℚ) (fuel : Nat) : Option PollOutcome :=
  pollAux fetch clock cb sid timeoutVal interval (clock 0) fuel 0 0 [] [] []

/-- A control-operation POST through the transport: the job action name
and, for `setttl`, the ttl value sent. -/
structure ControlPost where
  action : String
  ttlArg : Int

/-- Modelled from the spec: `set_job_ttl` / `set_expiry` — reject a
negative ttl before any transport call is made, otherwise issue exactly
one `setttl` POST and return the boolean success signal.  The second
component records the POSTs actually issued. -/
def set_job_ttl (sid : String) (ttl : Int) :
    Except String Bool × List ControlPost :=
  if ttl < 0 then (.error ("TTL must be non-negative for job " ++ sid), [])
  else (.ok true, [⟨"setttl", ttl⟩])

/-- A snapshot is still active as the poll loop sees it: not failed, not
done/terminal, not paused. -/
def activeSnap (p : JobProgress) : Prop :=
  ¬(p.state = .FAILED ∨ p.is_failed = true) ∧
  ¬(p.is_done = true ∨ p.state.is_terminal = true) ∧
  ¬(p.is_paused = true)

/-- A transport response whose single entry reports a failed job with
two diagnostic messages, as in the `JobFailedError` scenario of the spec. -/
def failedResp : Value :=
  .dict [("entry", .list [.dict [("content", .dict
    [("dispatchState", .str "FAILED"), ("isFailed", .bool true),
     ("messages", .list
       [.dict [("type", .str "ERROR"), ("text", .str "Search error")],
        .dict [("type", .str "INFO"), ("text", .str "Some info")]])])]])]

/-- The snapshot `failedResp` decodes to (with the requested identifier
stamped on). -/
def failedProgress : JobProgress :=
  { sid := "test_sid", state := .FAILED, done_progress := 0,
    event_count := 0, result_count := 0, scan_count := 0,
    run_duration := 0, is_done := false, is_failed := true,
    is_paused := false,
    messages := [("ERROR", "Search error"), ("INFO", "Some info")] }

/-- A transport response whose single entry reports a paused job. -/
def pausedResp : Value :=
  .dict [("entry", .list [.dict [("content", .dict
    [("dispatchState", .str "PAUSED"), ("isPaused", .bool true)])]])]

/-- The snapshot `pausedResp` decodes to. -/
def pausedProgress : JobProgress :=
  { sid := "test_sid", state := .PAUSED, done_progress := 0,
    event_count := 0, result_count := 0, scan_count := 0,
    run_duration := 0, is_done := false, is_failed := false,
    is_paused := true, messages := [] }

/-- A transport response whose single entry reports a running job. -/
def runningResp : Value :=
  .dict [("entry", .list [.dict [("content", .dict
    [("dispatchState", .str "RUNNING")])]])]

/-- The snapshot `runningResp` decodes to. -/
def runningProgress : JobProgress :=
  { sid := "test_sid", state := .RUNNING, done_progress := 0,
    event_count := 0, result_count := 0, scan_count := 0,
    run_duration := 0, is_done := false, is_failed := false,
    is_paused := false, messages := [] }

/-- A time source that never advances: the wall clock of a run during
which no clock adjustment happens (readings in seconds). -/
def steadyClock : Nat → ℚ := fun _ => 0

/-- The wall clock of a run identical to the `steadyClock` run except that the
system clock is adjusted forward by 1000 seconds after the second
reading. -/
def jumpClock : Nat → ℚ := fun n => if n < 2 then 0 else 1000

example : JobProgress.decode (.dict []) = .error .missingState := rfl

example :
    JobProgress.decode (.dict [("dispatchState", .str "INVALID_STATE")]) =
      .error (.invalidState (.str "INVALID_STATE")) := rfl

example :
    (JobProgress.decode (.dict [("dispatchState", .str "RUNNING"),
      ("eventCount", .str "100"), ("doneProgress", .str "0.5")])).toOption.map
      (fun p => p.event_count) = some 100 := by
  decide

example :
    (JobProgress.decode (.dict [("dispatchState", .str "RUNNING"),
      ("doneProgress", .str "0.5")])).toOption.map
      (fun p => p.done_progress) = some (1/2) := by
  simp [JobProgress.decode, dictLookup, List.lookup, parseState,
    JobState.ofString?, safe_float, parseDecimal, parseDecimalCore,
    parseNatList, parseNatAux, charDigit?]
  norm_num
  exact ⟨_, rfl, rfl⟩

section StepLemmas

variable (fetch : Nat → Value) (clock : Nat → ℚ)
variable (cb : Option (JobProgress → Except String Unit)) (sid : String)
variable (timeoutVal interval start : ℚ)
variable (n i fc : Nat) (snaps : List JobProgress) (sls : List ℚ)
variable (cbs : List JobProgress) (p : JobProgress)

lemma pollAux_step_err (e : PollError)
    (hp : get_dispatch_state (fetch i) sid = .error e) :
    pollAux fetch clock cb sid timeoutVal interval start (n + 1) i fc snaps
      sls cbs = some ⟨.error e, fc + 1, snaps, sls, cbs⟩ := by
  simp only [pollAux, hp]

lemma pollAux_step_failed
    (hp : get_dispatch_state (fetch i) sid = .ok p)
    (hfail : p.state = .FAILED ∨ p.is_failed = true) :
    pollAux fetch clock cb sid timeoutVal interval start (n + 1) i fc snaps
      sls cbs =
    some ⟨.error (.jobFailed sid p.state.value p.messages), fc + 1,
      snaps ++ [p], sls, cbUpdate cb cbs p⟩ := by
  simp only [pollAux, hp]
  rw [if_pos hfail]

lemma pollAux_step_done
    (hp : get_dispatch_state (fetch i) sid = .ok p)
    (hnf : ¬(p.state = .FAILED ∨ p.is_failed = true))
    (hdone : p.is_done = true ∨ p.state.is_terminal = true) :
    pollAux fetch clock cb sid timeoutVal interval start (n + 1) i fc snaps
      sls cbs =
    some ⟨.ok p, fc + 1, snaps ++ [p], sls, cbUpdate cb cbs p⟩ := by
  simp only [pollAux, hp]
  rw [if_neg hnf, if_pos hdone]

lemma pollAux_step_paused
    (hp : get_dispatch_state (fetch i) sid = .ok p)
    (hnf : ¬(p.state = .FAILED ∨ p.is_failed = true))
    (hnd : ¬(p.is_done = true ∨ p.state.is_terminal = true))
    (hpau : p.is_paused = true) :
    pollAux fetch clock cb sid timeoutVal interval start (n + 1) i fc snaps
      sls cbs =
    some ⟨.ok p, fc + 1, snaps ++ [p], sls, cbUpdate cb cbs p⟩ := by
  simp only [pollAux, hp]
  rw [if_neg hnf, if_neg hnd, if_pos hpau]

lemma pollAux_step_timeout
    (hp : get_dispatch_state (fetch i) sid = .ok p)
    (hact : activeSnap p)
    (hel : timeoutVal ≤ clock (i + 1) - start) :
    pollAux fetch clock cb sid timeoutVal interval start (n + 1) i fc snaps
      sls cbs =
    some ⟨.error (.timeout sid (clock (i + 1) - start) timeoutVal), fc + 1,
      snaps ++ [p], sls, cbUpdate cb cbs p⟩ := by
  simp only [pollAux, hp]
  rw [if_neg hact.1, if_neg hact.2.1, if_neg hact.2.2, if_pos hel]

lemma pollAux_step_active
    (hp : get_dispatch_state (fetch i) sid = .ok p)
    (hact : activeSnap p)
    (hel : ¬(timeoutVal ≤ clock (i + 1) - start)) :
    pollAux fetch clock cb sid timeoutVal interval start (n + 1) i fc snaps
      sls cbs =
    pollAux fetch clock cb sid timeoutVal interval start n (i + 1) (fc + 1)
      (snaps ++ [p]) (sls ++ [interval]) (cbUpdate cb cbs p) := by
  simp only [pollAux, hp]
  rw [if_neg hact.1, if_neg hact.2.1, if_neg hact.2.2, if_neg hel]

end StepLemmas

/-- C5: For every value of the `JobState` enumeration, `is_active` holds
exactly for `QUEUED, PARSING, RUNNING, FINALIZING`; `is_terminal` holds
exactly for `DONE` and `FAILED` (in particular `PAUSED` is not
terminal); and `is_success` holds only for `DONE`. -/
theorem jobState_classification (s : JobState) :
    (s.is_active = true ↔
      s = .QUEUED ∨ s = .PARSING ∨ s = .RUNNING ∨ s = .FINALIZING) ∧
    (s.is_terminal = true ↔ s = .DONE ∨ s = .FAILED) ∧
    (s.is_success = true ↔ s = .DONE) := by
  cases s <;>
    simp [JobState.is_active, JobState.is_terminal, JobState.is_success]

/-- C3: For every raw status payload whose `dispatchState` field is
absent, the decoder fails with the missing-state error, and for every
payload whose `dispatchState` value is outside the closed enumeration,
it fails with the invalid-state error naming the offending raw value;
the state field is never silently defaulted. -/
theorem decode_rejects_bad_state (d : Value) :
    (dictLookup "dispatchState" d = none →
      JobProgress.decode d = .error .missingState) ∧
    (∀ v, dictLookup "dispatchState" d = some v → parseState v = none →
      JobProgress.decode d = .error (.invalidState v)) := by
  constructor
  · intro h
    simp [JobProgress.decode, h]
  · intro v hv hp
    simp [JobProgress.decode, hv, hp]

/-- Witness for C3 at the empty payload and at a payload carrying the
unrecognized state string `INVALID_STATE`. -/
theorem decode_rejects_bad_state_w :
    JobProgress.decode (.dict []) = .error .missingState ∧
    JobProgress.decode (.dict [("dispatchState", .str "INVALID_STATE")]) =
      .error (.invalidState (.str "INVALID_STATE")) :=
  ⟨(decode_rejects_bad_state (.dict [])).1 rfl,
   (decode_rejects_bad_state
       (.dict [("dispatchState", .str "INVALID_STATE")])).2
     (.str "INVALID_STATE") rfl rfl⟩

/-- C9: `set_job_ttl` rejects every negative ttl before any transport
call is made (no POST is issued), and for every non-negative ttl it
issues exactly one `setttl` POST and returns the boolean success
signal. -/
theorem set_job_ttl_spec (sid : String) (ttl : Int) :
    (ttl < 0 → (∃ m, (set_job_ttl sid ttl).1 = .error m) ∧
      (set_job_ttl sid ttl).2 = []) ∧
    (0 ≤ ttl → (set_job_ttl sid ttl).1 = .ok true ∧
      (set_job_ttl sid ttl).2 = [⟨"setttl", ttl⟩]) := by
  constructor
  · intro h
    refine ⟨⟨"TTL must be non-negative for job " ++ sid, ?_⟩, ?_⟩ <;>
      simp [set_job_ttl, h]
  · intro h
    constructor <;> simp [set_job_ttl, not_lt.mpr h]

/-- Witness for C9 at ttl `-1` (rejected, no POST) and ttl `3600` (one
`setttl` POST, success). -/
theorem set_job_ttl_spec_w :
    ((∃ m, (set_job_ttl "test_sid" (-1)).1 = .error m) ∧
      (set_job_ttl "test_sid" (-1)).2 = []) ∧
    ((set_job_ttl "test_sid" 3600).1 = .ok true ∧
      (set_job_ttl "test_sid" 3600).2 = [⟨"setttl", 3600⟩]) :=
  ⟨(set_job_ttl_spec "test_sid" (-1)).1 (by decide),
   (set_job_ttl_spec "test_sid" 3600).2 (by decide)⟩

lemma pollAux_active_prefix (fetch : Nat → Value) (clock : Nat → ℚ)
    (cb : Option (JobProgress → Except String Unit)) (sid : String)
    (timeoutVal interval start : ℚ) :
    ∀ (i k fc : Nat) (snaps : List JobProgress) (sls : List ℚ)
      (cbs : List JobProgress) (fuel : Nat),
      (∀ j, j < i → ∃ p, get_dispatch_state (fetch (k + j)) sid = .ok p ∧
        activeSnap p) →
      (∀ j, j < i → clock (k + j + 1) - start < timeoutVal) →
      ∃ snaps2 cbs2,
        pollAux fetch clock cb sid timeoutVal interval start (fuel + i) k
          fc snaps sls cbs =
        pollAux fetch clock cb sid timeoutVal interval start fuel (k + i)
          (fc + i) snaps2 (sls ++ List.replicate i interval) cbs2 := by
  intro i
  induction i with
  | zero =>
    intro k fc snaps sls cbs fuel _ _
    exact ⟨snaps, cbs, by simp⟩
  | succ m ih =>
    intro k fc snaps sls cbs fuel hact hbef
    obtain ⟨p, hp, hps⟩ := hact 0 (Nat.succ_pos m)
    rw [Nat.add_zero] at hp
    have hlt : clock (k + 1) - start < timeoutVal := by
      have h0 := hbef 0 (Nat.succ_pos m)
      rwa [Nat.add_zero] at h0
    have hstep := pollAux_step_active fetch clock cb sid timeoutVal
      interval start (fuel + m) k fc snaps sls cbs p hp hps
      (not_le.mpr hlt)
    obtain ⟨snaps2, cbs2, hrec⟩ := ih (k + 1) (fc + 1) (snaps ++ [p])
      (sls ++ [interval]) (cbUpdate cb cbs p) fuel
      (by
        intro j hj
        have h := hact (j + 1) (by omega)
        rwa [show k + (j + 1) = k + 1 + j by omega] at h)
      (by
        intro j hj
        have h := hbef (j + 1) (by omega)
        rwa [show k + (j + 1) + 1 = k + 1 + j + 1 by omega] at h)
    refine ⟨snaps2, cbs2, ?_⟩
    rw [show fuel + (m + 1) = (fuel + m) + 1 by omega, hstep, hrec,
      show k + 1 + m = k + (m + 1) by omega,
      show fc + 1 + m = fc + (m + 1) by omega, List.append_assoc]
    rfl

/-- C1: Whenever the failure of the job is first observed on poll `i` (all
earlier polls saw the job still active within the timeout) and the
`i`-th fetched status decodes to a snapshot with a failed state (or the
`is_failed` flag set), `poll_job_status` raises `JobFailedError`
carrying the identifier, the dispatch state, and the collected
diagnostic messages, on that very poll: exactly `i + 1` fetches are
issued and no further iteration or retry happens. -/
theorem poll_fails_fast_on_failed (fetch : Nat → Value) (clock : Nat → ℚ)
    (cb : Option (JobProgress → Except String Unit)) (sid : String)
    (timeoutVal interval : ℚ) (i fuel : Nat) (p : JobProgress)
    (hfuel : i < fuel)
    (hact : ∀ j, j < i → ∃ q, get_dispatch_state (fetch j) sid = .ok q ∧
      activeSnap q)
    (hbef : ∀ j, j < i → clock (j + 1) - clock 0 < timeoutVal)
    (hfetch : get_dispatch_state (fetch i) sid = .ok p)
    (hfail : p.state = .FAILED ∨ p.is_failed = true) :
    ∃ o, poll_job_status fetch clock cb sid timeoutVal interval fuel =
        some o ∧
      o.result = .error (.jobFailed sid p.state.value p.messages) ∧
      o.fetchCount = i + 1 ∧ o.sleeps = List.replicate i interval := by
  obtain ⟨m, rfl⟩ : ∃ m, fuel = (m + 1) + i := ⟨fuel - i - 1, by omega⟩
  unfold poll_job_status
  obtain ⟨snaps2, cbs2, heq⟩ := pollAux_active_prefix fetch clock cb sid
    timeoutVal interval (clock 0) i 0 0 [] [] [] (m + 1)
    (by intro j hj; simpa using hact j hj)
    (by intro j hj; simpa using hbef j hj)
  rw [heq, pollAux_step_failed fetch clock cb sid timeoutVal interval
    (clock 0) m (0 + i) (0 + i) snaps2 ([] ++ List.replicate i interval)
    cbs2 p (by simpa using hfetch) hfail]
  exact ⟨_, rfl, rfl, by simp, by simp⟩

/-- Witness for C1: a transport returning `FAILED` with two diagnostic
messages makes the poll raise `JobFailedError` with a message list of
length 2 on the very first poll, with no sleeping. -/
theorem poll_fails_fast_on_failed_w :
    ∃ o, poll_job_status (fun _ => failedResp) steadyClock none "test_sid"
        5 1 1 = some o ∧
      o.result = .error (.jobFailed "test_sid" "FAILED"
        [("ERROR", "Search error"), ("INFO", "Some info")]) ∧
      o.fetchCount = 0 + 1 ∧ o.sleeps = List.replicate 0 1 :=
  poll_fails_fast_on_failed (fun _ => failedResp) steadyClock none
    "test_sid" 5 1 0 1 failedProgress (by decide)
    (fun j hj => absurd hj (Nat.not_lt_zero j))
    (fun j hj => absurd hj (Nat.not_lt_zero j)) rfl (Or.inl rfl)

/-- C6: Whenever the pause is first observed on poll `i` (all earlier
polls saw the job still active within the timeout) and the `i`-th
fetched status decodes to a paused snapshot (paused flag set, not
failed, not done — its state being `PAUSED`, which is not terminal),
`poll_job_status` returns that snapshot immediately and successfully:
`i + 1` fetches, no error, and no waiting for a terminal state. -/
theorem poll_returns_on_paused (fetch : Nat → Value) (clock : Nat → ℚ)
    (cb : Option (JobProgress → Except String Unit)) (sid : String)
    (timeoutVal interval : ℚ) (i fuel : Nat) (p : JobProgress)
    (hfuel : i < fuel)
    (hact : ∀ j, j < i → ∃ q, get_dispatch_state (fetch j) sid = .ok q ∧
      activeSnap q)
    (hbef : ∀ j, j < i → clock (j + 1) - clock 0 < timeoutVal)
    (hfetch : get_dispatch_state (fetch i) sid = .ok p)
    (hstate : p.state = .PAUSED)
    (hnf : p.is_failed = false) (hnd : p.is_done = false)
    (hpau : p.is_paused = true) :
    ∃ o, poll_job_status fetch clock cb sid timeoutVal interval fuel =
        some o ∧
      o.result = .ok p ∧ o.fetchCount = i + 1 ∧
      o.sleeps = List.replicate i interval := by
  obtain ⟨m, rfl⟩ : ∃ m, fuel = (m + 1) + i := ⟨fuel - i - 1, by omega⟩
  unfold poll_job_status
  obtain ⟨snaps2, cbs2, heq⟩ := pollAux_active_prefix fetch clock cb sid
    timeoutVal interval (clock 0) i 0 0 [] [] [] (m + 1)
    (by intro j hj; simpa using hact j hj)
    (by intro j hj; simpa using hbef j hj)
  rw [heq, pollAux_step_paused fetch clock cb sid timeoutVal interval
    (clock 0) m (0 + i) (0 + i) snaps2 ([] ++ List.replicate i interval)
    cbs2 p (by simpa using hfetch)
    (by rw [hstate, hnf]; simp)
    (by rw [hstate, hnd]; simp [JobState.is_terminal])
    hpau]
  exact ⟨_, rfl, rfl, by simp, by simp⟩

/-- Witness for C6: a transport returning `PAUSED` makes the poll return
the paused snapshot at once, without raising and without sleeping. -/
theorem poll_returns_on_paused_w :
    ∃ o, poll_job_status (fun _ => pausedResp) steadyClock none "test_sid"
        5 1 1 = some o ∧
      o.result = .ok pausedProgress ∧ o.fetchCount = 0 + 1 ∧
      o.sleeps = List.replicate 0 1 :=
  poll_returns_on_paused (fun _ => pausedResp) steadyClock none "test_sid"
    5 1 0 1 pausedProgress (by decide)
    (fun j hj => absurd hj (Nat.not_lt_zero j))
    (fun j hj => absurd hj (Nat.not_lt_zero j)) rfl rfl rfl rfl rfl

lemma cbUpdate_none (cbs : List JobProgress) (p : JobProgress) :
    cbUpdate none cbs p = cbs := rfl

lemma pollAux_times_out (fetch : Nat → Value) (clock : Nat → ℚ)
    (cb : Option (JobProgress → Except String Unit)) (sid : String)
    (timeoutVal interval start : ℚ) :
    ∀ (i k fc : Nat) (snaps : List JobProgress) (sls : List ℚ)
      (cbs : List JobProgress) (fuel : Nat), i < fuel →
      (∀ j, j ≤ i → ∃ p, get_dispatch_state (fetch (k + j)) sid = .ok p ∧
        activeSnap p) →
      (∀ j, j < i → clock (k + j + 1) - start < timeoutVal) →
      timeoutVal ≤ clock (k + i + 1) - start →
      ∃ o, pollAux fetch clock cb sid timeoutVal interval start fuel k fc
          snaps sls cbs = some o ∧
        o.result = .error (.timeout sid (clock (k + i + 1) - start)
          timeoutVal) ∧
        o.fetchCount = fc + (i + 1) ∧
        o.sleeps = sls ++ List.replicate i interval := by
  intro i
  induction i with
  | zero =>
    intro k fc snaps sls cbs fuel hfuel hact hbef hat
    obtain ⟨n, rfl⟩ : ∃ n, fuel = n + 1 := ⟨fuel - 1, by omega⟩
    obtain ⟨p, hp, hps⟩ := hact 0 (Nat.le_refl 0)
    rw [Nat.add_zero] at hp
    rw [Nat.add_zero] at hat
    rw [pollAux_step_timeout fetch clock cb sid timeoutVal interval start
      n k fc snaps sls cbs p hp hps hat]
    exact ⟨_, rfl, by simp, rfl, by simp⟩
  | succ m ih =>
    intro k fc snaps sls cbs fuel hfuel hact hbef hat
    obtain ⟨n, rfl⟩ : ∃ n, fuel = n + 1 := ⟨fuel - 1, by omega⟩
    obtain ⟨p, hp, hps⟩ := hact 0 (Nat.zero_le _)
    rw [Nat.add_zero] at hp
    have hlt : clock (k + 1) - start < timeoutVal := by
      have h0 := hbef 0 (Nat.succ_pos m)
      rwa [Nat.add_zero] at h0
    rw [pollAux_step_active fetch clock cb sid timeoutVal interval start
      n k fc snaps sls cbs p hp hps (not_le.mpr hlt)]
    have hact' : ∀ j, j ≤ m →
        ∃ p, get_dispatch_state (fetch (k + 1 + j)) sid = .ok p ∧
          activeSnap p := by
      intro j hj
      have h := hact (j + 1) (by omega)
      rwa [show k + (j + 1) = k + 1 + j by omega] at h
    have hbef' : ∀ j, j < m → clock (k + 1 + j + 1) - start < timeoutVal := by
      intro j hj
      have h := hbef (j + 1) (by omega)
      rwa [show k + (j + 1) + 1 = k + 1 + j + 1 by omega] at h
    have hat' : timeoutVal ≤ clock (k + 1 + m + 1) - start := by
      rwa [show k + (m + 1) + 1 = k + 1 + m + 1 by omega] at hat
    obtain ⟨o, ho, hr, hfc, hsl⟩ := ih (k + 1) (fc + 1) (snaps ++ [p])
      (sls ++ [interval]) (cbUpdate cb cbs p) n (by omega) hact' hbef' hat'
    refine ⟨o, ho, ?_, ?_, ?_⟩
    · rw [show k + (m + 1) + 1 = k + 1 + m + 1 by omega]
      exact hr
    · rw [hfc]; omega
    · rw [hsl, List.append_assoc]
      congr 1

/-- C2: When the job stays active, `poll_job_status` raises
`PollTimeoutError` — naming the identifier and the elapsed/timeout
values — on exactly the first loop iteration whose elapsed time (clock
reading minus the start reading) reaches the timeout, and never before:
every earlier iteration slept one poll interval and repeated. -/
theorem poll_times_out (fetch : Nat → Value) (clock : Nat → ℚ)
    (cb : Option (JobProgress → Except String Unit)) (sid : String)
    (timeoutVal interval : ℚ) (i fuel : Nat)
    (hfuel : i < fuel)
    (hact : ∀ j, j ≤ i → ∃ p, get_dispatch_state (fetch j) sid = .ok p ∧
      activeSnap p)
    (hbef : ∀ j, j < i → clock (j + 1) - clock 0 < timeoutVal)
    (hat : timeoutVal ≤ clock (i + 1) - clock 0) :
    ∃ o, poll_job_status fetch clock cb sid timeoutVal interval fuel =
        some o ∧
      o.result = .error (.timeout sid (clock (i + 1) - clock 0)
        timeoutVal) ∧
      o.fetchCount = i + 1 ∧ o.sleeps = List.replicate i interval := by
  obtain ⟨o, ho, hr, hfc, hsl⟩ := pollAux_times_out fetch clock cb sid
    timeoutVal interval (clock 0) i 0 0 [] [] [] fuel hfuel
    (by intro j hj; simpa using hact j hj)
    (by intro j hj; simpa using hbef j hj)
    (by simpa using hat)
  exact ⟨o, ho, by simpa using hr, by simpa using hfc, by simpa using hsl⟩

/-- Witness for C2: with a transport that always reports `RUNNING`, a
timeout of 1000 and a clock reading 0, 0, 1000, the poll sleeps once
(elapsed 0 < 1000), then raises the timeout error on the second
iteration with elapsed 1000, after exactly two fetches. -/
theorem poll_times_out_w :
    ∃ o, poll_job_status (fun _ => runningResp) jumpClock none "test_sid"
        1000 1 3 = some o ∧
      o.result = .error (.timeout "test_sid" 1000 1000) ∧
      o.fetchCount = 2 ∧ o.sleeps = [1] := by
  obtain ⟨o, ho, hr, hfc, hsl⟩ := poll_times_out (fun _ => runningResp)
    jumpClock none "test_sid" 1000 1 1 3 (by omega)
    (fun j hj => ⟨runningProgress, rfl, by unfold activeSnap; decide⟩)
    (by
      intro j hj
      have hj0 : j = 0 := by omega
      subst hj0
      norm_num [jumpClock])
    (by norm_num [jumpClock])
  refine ⟨o, ho, ?_, hfc, by simpa using hsl⟩
  rw [hr]
  norm_num [jumpClock]

lemma cbUpdate_some (f : JobProgress → Except String Unit)
    (cbs : List JobProgress) (p : JobProgress) :
    cbUpdate (some f) cbs p = cbs ++ [p] := rfl

lemma pollAux_never_ends (fetch : Nat → Value) (clock : Nat → ℚ)
    (cb : Option (JobProgress → Except String Unit)) (sid : String)
    (timeoutVal interval start : ℚ) :
    ∀ (fuel k fc : Nat) (snaps : List JobProgress) (sls : List ℚ)
      (cbs : List JobProgress),
      (∀ j, ∃ p, get_dispatch_state (fetch j) sid = .ok p ∧ activeSnap p) →
      (∀ j, clock (j + 1) - start < timeoutVal) →
      pollAux fetch clock cb sid timeoutVal interval start fuel k fc snaps
        sls cbs = none := by
  intro fuel
  induction fuel with
  | zero => intro k fc snaps sls cbs _ _; rfl
  | succ n ih =>
    intro k fc snaps sls cbs hact hcl
    obtain ⟨p, hp, hps⟩ := hact k
    rw [pollAux_step_active fetch clock cb sid timeoutVal interval start
      n k fc snaps sls cbs p hp hps (not_le.mpr (hcl k))]
    exact ih _ _ _ _ _ hact hcl

/-- C8 (divergence): the elapsed time of the poll loop is read from the
injectable `time.time` wall clock (the unit tests patch exactly that
function to drive the timeout), so two runs that differ only in a
system-clock adjustment reach different outcomes: against a transport
that always reports `RUNNING` with timeout 1s, the run whose clock never
advances keeps polling (fuel 3 is exhausted with no outcome), while the
run whose clock jumps forward 1000 s after the second reading raises the
timeout error on its second fetch — refuting outcome-invariance under
wall-clock adjustment for the code as tested. -/
theorem poll_clock_adjustment_divergence :
    poll_job_status (fun _ => runningResp) steadyClock none "test_sid"
      1 1 3 = none ∧
    ∃ o, poll_job_status (fun _ => runningResp) jumpClock none "test_sid"
        1 1 3 = some o ∧
      o.result = .error (.timeout "test_sid" 1000 1) ∧
      o.fetchCount = 2 := by
  constructor
  · exact pollAux_never_ends (fun _ => runningResp) steadyClock none
      "test_sid" 1 1 (steadyClock 0) 3 0 0 [] [] []
      (fun j => ⟨runningProgress, rfl, by unfold activeSnap; decide⟩)
      (fun j => by norm_num [steadyClock])
  · obtain ⟨o, ho, hr, hfc, _⟩ := pollAux_times_out
      (fun _ => runningResp) jumpClock none "test_sid" 1 1 (jumpClock 0)
      1 0 0 [] [] [] 3 (by omega)
      (fun j hj => ⟨runningProgress, rfl, by unfold activeSnap; decide⟩)
      (by
        intro j hj
        have hj0 : j = 0 := by omega
        subst hj0
        norm_num [jumpClock])
      (by norm_num [jumpClock])
    refine ⟨o, ho, ?_, by simpa using hfc⟩
    rw [hr]
    norm_num [jumpClock]

lemma pollAux_cb_agnostic (fetch : Nat → Value) (clock : Nat → ℚ)
    (f : JobProgress → Except String Unit) (sid : String)
    (timeoutVal interval start : ℚ) :
    ∀ (fuel i fc : Nat) (snaps : List JobProgress) (sls : List ℚ)
      (cbs1 cbs2 : List JobProgress),
      (pollAux fetch clock (some f) sid timeoutVal interval start fuel i fc
          snaps sls cbs1).map
        (fun o => (o.result, o.fetchCount, o.snapshots, o.sleeps)) =
      (pollAux fetch clock none sid timeoutVal interval start fuel i fc
          snaps sls cbs2).map
        (fun o => (o.result, o.fetchCount, o.snapshots, o.sleeps)) := by
  intro fuel
  induction fuel with
  | zero => intros; rfl
  | succ n ih =>
    intro i fc snaps sls cbs1 cbs2
    cases hp : get_dispatch_state (fetch i) sid with
    | error e =>
      rw [pollAux_step_err fetch clock (some f) sid timeoutVal interval
          start n i fc snaps sls cbs1 e hp,
        pollAux_step_err fetch clock none sid timeoutVal interval
          start n i fc snaps sls cbs2 e hp]
      rfl
    | ok p =>
      by_cases h1 : p.state = .FAILED ∨ p.is_failed = true
      · rw [pollAux_step_failed fetch clock (some f) sid timeoutVal
            interval start n i fc snaps sls cbs1 p hp h1,
          pollAux_step_failed fetch clock none sid timeoutVal
            interval start n i fc snaps sls cbs2 p hp h1]
        rfl
      · by_cases h2 : p.is_done = true ∨ p.state.is_terminal = true
        · rw [pollAux_step_done fetch clock (some f) sid timeoutVal
              interval start n i fc snaps sls cbs1 p hp h1 h2,
            pollAux_step_done fetch clock none sid timeoutVal
              interval start n i fc snaps sls cbs2 p hp h1 h2]
          rfl
        · by_cases h3 : p.is_paused = true
          · rw [pollAux_step_paused fetch clock (some f) sid timeoutVal
                interval start n i fc snaps sls cbs1 p hp h1 h2 h3,
              pollAux_step_paused fetch clock none sid timeoutVal
                interval start n i fc snaps sls cbs2 p hp h1 h2 h3]
            rfl
          · by_cases h4 : timeoutVal ≤ clock (i + 1) - start
            · rw [pollAux_step_timeout fetch clock (some f) sid timeoutVal
                  interval start n i fc snaps sls cbs1 p hp ⟨h1, h2, h3⟩ h4,
                pollAux_step_timeout fetch clock none sid timeoutVal
                  interval start n i fc snaps sls cbs2 p hp ⟨h1, h2, h3⟩ h4]
              rfl
            · rw [pollAux_step_active fetch clock (some f) sid timeoutVal
                  interval start n i fc snaps sls cbs1 p hp ⟨h1, h2, h3⟩ h4,
                pollAux_step_active fetch clock none sid timeoutVal
                  interval start n i fc snaps sls cbs2 p hp ⟨h1, h2, h3⟩ h4]
              exact ih _ _ _ _ _ _

lemma pollAux_cb_records (fetch : Nat → Value) (clock : Nat → ℚ)
    (f : JobProgress → Except String Unit) (sid : String)
    (timeoutVal interval start : ℚ) :
    ∀ (fuel i fc : Nat) (snaps : List JobProgress) (sls : List ℚ)
      (cbs : List JobProgress), cbs = snaps →
      ∀ o, pollAux fetch clock (some f) sid timeoutVal interval start fuel
          i fc snaps sls cbs = some o →
        o.cbCalls = o.snapshots := by
  intro fuel
  induction fuel with
  | zero => intro i fc snaps sls cbs _ o h; exact absurd h (by simp [pollAux])
  | succ n ih =>
    intro i fc snaps sls cbs hinv o h
    cases hp : get_dispatch_state (fetch i) sid with
    | error e =>
      rw [pollAux_step_err fetch clock (some f) sid timeoutVal interval
        start n i fc snaps sls cbs e hp] at h
      cases h
      simpa using hinv
    | ok p =>
      by_cases h1 : p.state = .FAILED ∨ p.is_failed = true
      · rw [pollAux_step_failed fetch clock (some f) sid timeoutVal
          interval start n i fc snaps sls cbs p hp h1] at h
        cases h
        simp [cbUpdate_some, hinv]
      · by_cases h2 : p.is_done = true ∨ p.state.is_terminal = true
        · rw [pollAux_step_done fetch clock (some f) sid timeoutVal
            interval start n i fc snaps sls cbs p hp h1 h2] at h
          cases h
          simp [cbUpdate_some, hinv]
        · by_cases h3 : p.is_paused = true
          · rw [pollAux_step_paused fetch clock (some f) sid timeoutVal
              interval start n i fc snaps sls cbs p hp h1 h2 h3] at h
            cases h
            simp [cbUpdate_some, hinv]
          · by_cases h4 : timeoutVal ≤ clock (i + 1) - start
            · rw [pollAux_step_timeout fetch clock (some f) sid timeoutVal
                interval start n i fc snaps sls cbs p hp ⟨h1, h2, h3⟩ h4] at h
              cases h
              simp [cbUpdate_some, hinv]
            · rw [pollAux_step_active fetch clock (some f) sid timeoutVal
                interval start n i fc snaps sls cbs p hp ⟨h1, h2, h3⟩ h4] at h
              exact ih _ _ _ _ _ (by simp [cbUpdate_some, hinv]) o h

/-- C7: A progress callback — including one that raises on every
invocation — never changes the outcome of `poll_job_status`: the result,
fetch count, decoded snapshots and sleeps are exactly those of the run
with no callback, and the callback is invoked once with each fetched
snapshot, in order. -/
theorem poll_callback_transparent (fetch : Nat → Value) (clock : Nat → ℚ)
    (f : JobProgress → Except String Unit) (sid : String)
    (timeoutVal interval : ℚ) (fuel : Nat) :
    ((poll_job_status fetch clock (some f) sid timeoutVal interval
        fuel).map
      (fun o => (o.result, o.fetchCount, o.snapshots, o.sleeps)) =
     (poll_job_status fetch clock none sid timeoutVal interval fuel).map
      (fun o => (o.result, o.fetchCount, o.snapshots, o.sleeps))) ∧
    ((poll_job_status fetch clock (some f) sid timeoutVal interval
        fuel).map (fun o => o.cbCalls) =
     (poll_job_status fetch clock (some f) sid timeoutVal interval
        fuel).map (fun o => o.snapshots)) := by
  constructor
  · exact pollAux_cb_agnostic fetch clock f sid timeoutVal interval
      (clock 0) fuel 0 0 [] [] [] []
  · cases ho : poll_job_status fetch clock (some f) sid timeoutVal
      interval fuel with
    | none => rfl
    | some o =>
      have h := pollAux_cb_records fetch clock f sid timeoutVal interval
        (clock 0) fuel 0 0 [] [] [] rfl o ho
      simp [h]

/-- The tolerant-coercion contract of an integer field of a decoded
snapshot: a numeric string is coerced to its number, an absent or
garbage value defaults to 0, an integer is taken as is. -/
def intFieldSpec (d : Value) (key : String) (val : Int) : Prop :=
  (∀ s n, dictLookup key d = some (.str s) → parseIntStr s = some n →
    val = n) ∧
  (dictLookup key d = none → val = 0) ∧
  (∀ s, dictLookup key d = some (.str s) → parseIntStr s = none →
    val = 0) ∧
  (∀ n, dictLookup key d = some (.int n) → val = n)

/-- The tolerant-coercion contract of a float field of a decoded
snapshot. -/
def floatFieldSpec (d : Value) (key : String) (val : ℚ) : Prop :=
  (∀ s q, dictLookup key d = some (.str s) → parseDecimal s = some q →
    val = q) ∧
  (dictLookup key d = none → val = 0) ∧
  (∀ s, dictLookup key d = some (.str s) → parseDecimal s = none →
    val = 0) ∧
  (∀ q, dictLookup key d = some (.rat q) → val = q)

/-- The tolerant contract of a boolean field of a decoded snapshot: an
absent value defaults to false, a boolean is taken as is. -/
def boolFieldSpec (d : Value) (key : String) (val : Bool) : Prop :=
  (dictLookup key d = none → val = false) ∧
  (∀ b, dictLookup key d = some (.bool b) → val = b)

lemma intFieldSpec_safe (d : Value) (key : String) :
    intFieldSpec d key (safe_int (dictLookup key d) 0) := by
  refine ⟨?_, ?_, ?_, ?_⟩
  · intro s n hs hn
    rw [hs]
    simp [safe_int, hn]
  · intro h
    rw [h]
    rfl
  · intro s hs hn
    rw [hs]
    simp [safe_int, hn]
  · intro n h
    rw [h]
    rfl

lemma floatFieldSpec_safe (d : Value) (key : String) :
    floatFieldSpec d key (safe_float (dictLookup key d) 0) := by
  refine ⟨?_, ?_, ?_, ?_⟩
  · intro s q hs hq
    rw [hs]
    simp [safe_float, hq]
  · intro h
    rw [h]
    rfl
  · intro s hs hq
    rw [hs]
    simp [safe_float, hq]
  · intro q h
    rw [h]
    rfl

lemma boolFieldSpec_safe (d : Value) (key : String) :
    boolFieldSpec d key (safe_bool (dictLookup key d)) := by
  refine ⟨?_, ?_⟩
  · intro h
    rw [h]
    rfl
  · intro b h
    rw [h]
    rfl

/-- C4: For every raw payload with a recognized state value, decoding
never raises, the state round-trips, and every numeric/boolean field
obeys the tolerant coercion contract for that field alone: a numeric
string is coerced to its number, and an absent or non-coercible value
defaults to 0 / 0.0 / false while the remaining fields decode
normally. -/
theorem decode_tolerant (d : Value) (v : Value) (st : JobState)
    (hv : dictLookup "dispatchState" d = some v)
    (hst : parseState v = some st) :
    ∃ p, JobProgress.decode d = .ok p ∧ p.state = st ∧
      intFieldSpec d "eventCount" p.event_count ∧
      intFieldSpec d "resultCount" p.result_count ∧
      intFieldSpec d "scanCount" p.scan_count ∧
      floatFieldSpec d "doneProgress" p.done_progress ∧
      floatFieldSpec d "runDuration" p.run_duration ∧
      boolFieldSpec d "isDone" p.is_done ∧
      boolFieldSpec d "isFailed" p.is_failed ∧
      boolFieldSpec d "isPaused" p.is_paused := by
  have hok : JobProgress.decode d = .ok
      { sid := safe_str (dictLookup "sid" d)
        state := st
        done_progress := safe_float (dictLookup "doneProgress" d) 0
        event_count := safe_int (dictLookup "eventCount" d) 0
        result_count := safe_int (dictLookup "resultCount" d) 0
        scan_count := safe_int (dictLookup "scanCount" d) 0
        run_duration := safe_float (dictLookup "runDuration" d) 0
        is_done := safe_bool (dictLookup "isDone" d)
        is_failed := safe_bool (dictLookup "isFailed" d)
        is_paused := safe_bool (dictLookup "isPaused" d)
        messages := decodeMessages (dictLookup "messages" d) } := by
    simp [JobProgress.decode, hv, hst]
  exact ⟨_, hok, rfl, intFieldSpec_safe d "eventCount",
    intFieldSpec_safe d "resultCount", intFieldSpec_safe d "scanCount",
    floatFieldSpec_safe d "doneProgress",
    floatFieldSpec_safe d "runDuration", boolFieldSpec_safe d "isDone",
    boolFieldSpec_safe d "isFailed", boolFieldSpec_safe d "isPaused"⟩

/-- Witness for C4: with state `RUNNING`, an `eventCount` arriving as
the numeric string `"100"` and a `doneProgress` of non-numeric garbage,
decoding succeeds, the count is coerced to 100 and the progress
defaults to 0 for that field alone, while the absent `isDone` defaults
to false. -/
theorem decode_tolerant_w :
    ∃ p, JobProgress.decode (.dict [("dispatchState", .str "RUNNING"),
        ("eventCount", .str "100"), ("doneProgress", .str "invalid")]) =
        .ok p ∧
      p.state = .RUNNING ∧ p.event_count = 100 ∧ p.done_progress = 0 ∧
      p.is_done = false := by
  obtain ⟨p, hok, hst, hev, _, _, hdp, _, hbd, _, _⟩ :=
    decode_tolerant (.dict [("dispatchState", .str "RUNNING"),
      ("eventCount", .str "100"), ("doneProgress", .str "invalid")])
      (.str "RUNNING") .RUNNING rfl rfl
  exact ⟨p, hok, hst, hev.1 "100" 100 rfl (by decide),
    hdp.2.2.1 "invalid" rfl (by decide), hbd.1 rfl⟩

/-- C10: `get_dispatch_state` raises the invalid-response error when
the `entry` list of the response is absent or empty, and on success returns
a snapshot whose identifier is the requested one, even when the
response body carries no identifier field. -/
theorem get_dispatch_state_contract (resp : Value) (sid : String) :
    (dictLookup "entry" resp = none →
      get_dispatch_state resp sid = .error .invalidResponse) ∧
    (dictLookup "entry" resp = some (.list []) →
      get_dispatch_state resp sid = .error .invalidResponse) ∧
    (∀ e rest p, dictLookup "entry" resp = some (.list (e :: rest)) →
      JobProgress.decode ((dictLookup "content" e).getD e) = .ok p →
      ∃ q, get_dispatch_state resp sid = .ok q ∧ q.sid = sid) := by
  refine ⟨?_, ?_, ?_⟩
  · intro h
    simp [get_dispatch_state, h]
  · intro h
    simp [get_dispatch_state, h]
  · intro e rest p he hp
    refine ⟨{ p with sid := sid }, ?_, rfl⟩
    simp [get_dispatch_state, he, hp]

/-- Witness for C10 at a response with an empty `entry` list (rejected)
and at a well-formed running-job response whose content carries no
`sid` (the requested identifier is stamped on). -/
theorem get_dispatch_state_contract_w :
    get_dispatch_state (.dict [("entry", .list [])]) "test_sid" =
      .error .invalidResponse ∧
    ∃ q, get_dispatch_state runningResp "test_sid" = .ok q ∧
      q.sid = "test_sid" :=
  ⟨(get_dispatch_state_contract (.dict [("entry", .list [])])
      "test_sid").2.1 rfl,
   (get_dispatch_state_contract runningResp "test_sid").2.2
     (.dict [("content", .dict [("dispatchState", .str "RUNNING")])]) []
     { runningProgress with sid := "" } rfl rfl⟩
